import Mathlib

/-!
Shallow embedding of the GridWorld reinforcement-learning repository:
the environment (src/gridworld/environment.py, src/gridworld/config.py)
and the tabular Q-learning agent (src/gridworld/agent.py).

Modelling conventions: Python ints are `Int` (coordinates, actions) or
`Nat` (counters); machine floats are exact rationals `ℚ`; the numpy
Q-table of shape [num_states, num_actions] is a list of rows; raised
exceptions are explicit error values returned alongside the state, which
is returned unchanged on the error paths because in the source every
raise precedes any mutation of the object.  File I/O in save/load is
abstracted away: a persisted pickle record is a `SaveDict` value.
-/

namespace GridWorld

/-- GridWorldConfig from config.py: grid geometry, reward scalars and the
step budget.  Defaults in the source: size 5, start (0,0), goal (4,4),
no obstacles, rewards 10 / -10 / -0.1, max_steps 100. -/
structure GridWorldConfig where
  grid_size : Int
  start_pos : Int × Int
  goal_pos : Int × Int
  obstacles : List (Int × Int)
  goal_reward : ℚ
  obstacle_penalty : ℚ
  step_penalty : ℚ
  max_steps : Nat
deriving Repr, DecidableEq

/-- The validation performed by GridWorldConfig.__post_init__: start, goal
and every obstacle lie inside the grid, and start differs from goal. -/
def GridWorldConfig.Valid (cfg : GridWorldConfig) : Prop :=
  (0 ≤ cfg.start_pos.1 ∧ cfg.start_pos.1 < cfg.grid_size ∧
   0 ≤ cfg.start_pos.2 ∧ cfg.start_pos.2 < cfg.grid_size) ∧
  (0 ≤ cfg.goal_pos.1 ∧ cfg.goal_pos.1 < cfg.grid_size ∧
   0 ≤ cfg.goal_pos.2 ∧ cfg.goal_pos.2 < cfg.grid_size) ∧
  (∀ o ∈ cfg.obstacles,
    0 ≤ o.1 ∧ o.1 < cfg.grid_size ∧ 0 ≤ o.2 ∧ o.2 < cfg.grid_size) ∧
  cfg.start_pos ≠ cfg.goal_pos

instance : DecidablePred GridWorldConfig.Valid := fun cfg => by
  unfold GridWorldConfig.Valid; infer_instance

/-- The mutable state of one GridWorldEnv instance: agent_pos is None until
the first reset; step_count counts accepted actions in the episode. -/
structure EnvState where
  agent_pos : Option (Int × Int)
  step_count : Nat
deriving Repr, DecidableEq

/-- Errors raised by GridWorldEnv.step: notReset models the RuntimeError
raised when agent_pos is None, invalidAction models the ValueError raised
for an action outside 0..3. -/
inductive StepError where
  | notReset : StepError
  | invalidAction : Int → StepError
deriving Repr, DecidableEq

/-- The info dict returned by GridWorldEnv.step. -/
structure StepInfo where
  step_count : Nat
  is_goal : Bool
  is_obstacle : Bool
deriving Repr, DecidableEq

/-- The 5-tuple returned by GridWorldEnv.step. -/
structure StepResult where
  observation : Int × Int
  reward : ℚ
  terminated : Bool
  truncated : Bool
  info : StepInfo
deriving Repr, DecidableEq

namespace GridWorldEnv

/-- Action constant UP = 0. -/
def UP : Int := 0

/-- Action constant DOWN = 1. -/
def DOWN : Int := 1

/-- Action constant LEFT = 2. -/
def LEFT : Int := 2

/-- Action constant RIGHT = 3. -/
def RIGHT : Int := 3

/-- GridWorldEnv.reset: puts the agent on the configured start position,
zeroes the step counter and returns the observation with an empty info
mapping.  The seed is passed to the Gymnasium base class and is unused by
the deterministic transition logic. -/
def reset (cfg : GridWorldConfig) (seed : Option Int) :
    ((Int × Int) × List (String × Int)) × EnvState :=
  ((cfg.start_pos, []), { agent_pos := some cfg.start_pos, step_count := 0 })

/-- The candidate next position computed by the if/elif chain of
GridWorldEnv.step: one cell in the action's direction, clamped to the grid
on that axis; none models the ValueError branch for an unknown action. -/
def movePosition (cfg : GridWorldConfig) (pos : Int × Int) (action : Int) :
    Option (Int × Int) :=
  if action = UP then some (pos.1, max 0 (pos.2 - 1))
  else if action = DOWN then some (pos.1, min (cfg.grid_size - 1) (pos.2 + 1))
  else if action = LEFT then some (max 0 (pos.1 - 1), pos.2)
  else if action = RIGHT then some (min (cfg.grid_size - 1) (pos.1 + 1), pos.2)
  else none

/-- GridWorldEnv.step.  On the two raise paths (not reset, invalid action)
the state is returned unchanged, because in the source both raises happen
before agent_pos and step_count are written.  Otherwise the position and
counter are updated, the reward and terminated flag follow the
goal / obstacle / default cascade, and truncated compares the incremented
counter with max_steps. -/
def step (cfg : GridWorldConfig) (s : EnvState) (action : Int) :
    Except StepError StepResult × EnvState :=
  match s.agent_pos with
  | none => (Except.error StepError.notReset, s)
  | some pos =>
    match movePosition cfg pos action with
    | none => (Except.error (StepError.invalidAction action), s)
    | some new_pos =>
      let new_count := s.step_count + 1
      let is_goal := decide (new_pos = cfg.goal_pos)
      let is_obstacle := decide (new_pos ∈ cfg.obstacles)
      let reward :=
        if is_goal then cfg.goal_reward
        else if is_obstacle then cfg.obstacle_penalty
        else cfg.step_penalty
      let terminated := is_goal || is_obstacle
      let truncated := decide (cfg.max_steps ≤ new_count)
      (Except.ok
        { observation := new_pos, reward := reward, terminated := terminated,
          truncated := truncated,
          info := { step_count := new_count, is_goal := is_goal,
                    is_obstacle := is_obstacle } },
       { agent_pos := some new_pos, step_count := new_count })

/-- GridWorldEnv.get_state_index: y * grid_size + x. -/
def get_state_index (cfg : GridWorldConfig) (position : Int × Int) : Int :=
  position.2 * cfg.grid_size + position.1

/-- GridWorldEnv.get_position_from_index: x = index % grid_size,
y = index // grid_size, with Python floor division and modulo. -/
def get_position_from_index (cfg : GridWorldConfig) (state_index : Int) :
    Int × Int :=
  (Int.fmod state_index cfg.grid_size, Int.fdiv state_index cfg.grid_size)

/-- GridWorldEnv.num_states property: grid_size * grid_size. -/
def num_states (cfg : GridWorldConfig) : Int :=
  cfg.grid_size * cfg.grid_size

/-- GridWorldEnv.num_actions property: always 4. -/
def num_actions (cfg : GridWorldConfig) : Int := 4

/-- Iterated stepping: applies a list of actions in order, threading the
environment state; models a driver loop calling step repeatedly. -/
def runSteps (cfg : GridWorldConfig) (s : EnvState) : List Int → EnvState
  | [] => s
  | a :: rest => runSteps cfg (step cfg s a).2 rest

end GridWorldEnv

/-- QLearningConfig from config.py, with its source defaults
0.1 / 0.99 / 1.0 / 0.01 / 0.995 / 500. -/
structure QLearningConfig where
  learning_rate : ℚ
  discount_factor : ℚ
  epsilon_start : ℚ
  epsilon_end : ℚ
  epsilon_decay : ℚ
  num_episodes : Nat
deriving Repr, DecidableEq

/-- The state of one QLearningAgent instance: hyperparameters, the declared
state/action counts, the Q-table and the current exploration rate. -/
structure QLearningAgent where
  config : QLearningConfig
  num_states : Nat
  num_actions : Nat
  q_table : List (List ℚ)
  epsilon : ℚ
deriving Repr, DecidableEq

/-- The pickle record written by QLearningAgent.save and read back by
QLearningAgent.load. -/
structure SaveDict where
  q_table : List (List ℚ)
  config : QLearningConfig
  epsilon : ℚ
  num_states : Nat
  num_actions : Nat
deriving Repr, DecidableEq

/-- np.max over a one-dimensional array (the source only applies it to the
nonempty rows of the Q-table). -/
def npMax : List ℚ → ℚ
  | [] => 0
  | x :: xs => xs.foldl max x

namespace QLearningAgent

/-- QLearningAgent.__init__: zero Q-table of shape
[num_states, num_actions], epsilon at its configured start value. -/
def init (num_states num_actions : Nat) (config : QLearningConfig) :
    QLearningAgent :=
  { config := config, num_states := num_states, num_actions := num_actions,
    q_table := List.replicate num_states (List.replicate num_actions 0),
    epsilon := config.epsilon_start }

/-- QLearningAgent.learn: the Bellman update.  Returns the TD error and the
updated agent; the future value is np.max of the next state's row, taken as
0 when the transition was terminal. -/
def learn (agent : QLearningAgent) (state_index action : Nat) (reward : ℚ)
    (next_state_index : Nat) (terminated : Bool) : ℚ × QLearningAgent :=
  let current_q := (agent.q_table.getD state_index []).getD action 0
  let max_next_q :=
    if terminated then 0 else npMax (agent.q_table.getD next_state_index [])
  let td_target := reward + agent.config.discount_factor * max_next_q
  let td_error := td_target - current_q
  let new_row := (agent.q_table.getD state_index []).set action
    (current_q + agent.config.learning_rate * td_error)
  (td_error, { agent with q_table := agent.q_table.set state_index new_row })

/-- QLearningAgent.decay_epsilon:
epsilon becomes max(epsilon_end, epsilon * epsilon_decay). -/
def decay_epsilon (agent : QLearningAgent) : QLearningAgent :=
  { agent with
    epsilon := max agent.config.epsilon_end
      (agent.epsilon * agent.config.epsilon_decay) }

/-- Repeated calls to decay_epsilon, as done once per training episode. -/
def decayN (agent : QLearningAgent) : Nat → QLearningAgent
  | 0 => agent
  | n + 1 => (decayN agent n).decay_epsilon

/-- QLearningAgent.save: the record persisted to disk. -/
def save (agent : QLearningAgent) : SaveDict :=
  { q_table := agent.q_table, config := agent.config,
    epsilon := agent.epsilon, num_states := agent.num_states,
    num_actions := agent.num_actions }

/-- QLearningAgent.load: restores every field of the agent from the record,
exactly as the five assignments in the source do; the source performs no
validation of the record against the live agent. -/
def load (agent : QLearningAgent) (save_dict : SaveDict) : QLearningAgent :=
  { q_table := save_dict.q_table, config := save_dict.config,
    epsilon := save_dict.epsilon, num_states := save_dict.num_states,
    num_actions := save_dict.num_actions }

end QLearningAgent

/-- The default GridWorldConfig of the source (all field defaults). -/
def defaultGridConfig : GridWorldConfig :=
  { grid_size := 5, start_pos := (0, 0), goal_pos := (4, 4), obstacles := [],
    goal_reward := 10, obstacle_penalty := -10, step_penalty := -1/10,
    max_steps := 100 }

/-- The default QLearningConfig of the source (all field defaults). -/
def defaultQConfig : QLearningConfig :=
  { learning_rate := 1/10, discount_factor := 99/100, epsilon_start := 1,
    epsilon_end := 1/100, epsilon_decay := 199/200, num_episodes := 500 }

/-- Concrete agent for the Bellman-update example of the spec:
learning_rate 0.5, discount_factor 0.9, Q[0,0] = 2 and max Q[1,a] = 5. -/
def bellmanAgent : QLearningAgent :=
  { config := { learning_rate := 1/2, discount_factor := 9/10,
                epsilon_start := 1, epsilon_end := 1/100,
                epsilon_decay := 199/200, num_episodes := 500 },
    num_states := 2, num_actions := 2,
    q_table := [[2, 0], [5, 0]], epsilon := 1 }

/-- A live agent configured with 2 states and 2 actions. -/
def smallAgent : QLearningAgent := QLearningAgent.init 2 2 defaultQConfig

/-- A persisted record whose state and action counts (3 and 3) differ from
smallAgent's configured counts (2 and 2). -/
def mismatchedDict : SaveDict :=
  { q_table := [[1, 2, 3], [4, 5, 6], [7, 8, 9]], config := defaultQConfig,
    epsilon := 1/2, num_states := 3, num_actions := 3 }

/-- Agent whose epsilon-related parameters satisfy the claim's stated
hypotheses (decay in [0,1], epsilon at least epsilon_end) while epsilon and
epsilon_end are negative. -/
def negativeEpsAgent : QLearningAgent :=
  { config := { learning_rate := 1/10, discount_factor := 99/100,
                epsilon_start := 1, epsilon_end := -2,
                epsilon_decay := 1/2, num_episodes := 500 },
    num_states := 1, num_actions := 1, q_table := [[0]], epsilon := -1 }

/-- Configuration whose goal coordinate is also listed as an obstacle
(the source's validation does not forbid this). -/
def goalOnObstacleConfig : GridWorldConfig :=
  { grid_size := 2, start_pos := (0, 0), goal_pos := (1, 0),
    obstacles := [(1, 0)], goal_reward := 10, obstacle_penalty := -10,
    step_penalty := -1/10, max_steps := 10 }

/-- Small configuration with max_steps = 2, used to exercise truncation. -/
def twoStepConfig : GridWorldConfig :=
  { grid_size := 5, start_pos := (0, 0), goal_pos := (4, 4), obstacles := [],
    goal_reward := 10, obstacle_penalty := -10, step_penalty := -1/10,
    max_steps := 2 }

/-! Helper lemmas shared by the claim theorems. -/

theorem getD_set_self {α : Type} (l : List α) (i : Nat) (x d : α)
    (h : i < l.length) :
    (l.set i x).getD i d = x := by
  rw [List.getD_eq_getElem?_getD, List.getElem?_set_self]
  · simp
  · exact h

theorem step_some_of_move (cfg : GridWorldConfig) (n : Nat) (p q : Int × Int)
    (a : Int) (h : GridWorldEnv.movePosition cfg p a = some q) :
    GridWorldEnv.step cfg { agent_pos := some p, step_count := n } a =
      (Except.ok
        { observation := q,
          reward := if decide (q = cfg.goal_pos) then cfg.goal_reward
                    else if decide (q ∈ cfg.obstacles) then cfg.obstacle_penalty
                    else cfg.step_penalty,
          terminated := decide (q = cfg.goal_pos) || decide (q ∈ cfg.obstacles),
          truncated := decide (cfg.max_steps ≤ n + 1),
          info := { step_count := n + 1,
                    is_goal := decide (q = cfg.goal_pos),
                    is_obstacle := decide (q ∈ cfg.obstacles) } },
       { agent_pos := some q, step_count := n + 1 }) := by
  simp only [GridWorldEnv.step, h]

theorem movePosition_isSome (cfg : GridWorldConfig) (p : Int × Int) (a : Int)
    (ha : a = GridWorldEnv.UP ∨ a = GridWorldEnv.DOWN ∨
          a = GridWorldEnv.LEFT ∨ a = GridWorldEnv.RIGHT) :
    ∃ q, GridWorldEnv.movePosition cfg p a = some q := by
  rcases ha with h | h | h | h <;> subst h <;>
    simp [GridWorldEnv.movePosition, GridWorldEnv.UP, GridWorldEnv.DOWN,
      GridWorldEnv.LEFT, GridWorldEnv.RIGHT]

theorem runSteps_some (cfg : GridWorldConfig) (acts : List Int)
    (p : Int × Int) (n : Nat)
    (h : ∀ b ∈ acts, b = GridWorldEnv.UP ∨ b = GridWorldEnv.DOWN ∨
          b = GridWorldEnv.LEFT ∨ b = GridWorldEnv.RIGHT) :
    ∃ q, GridWorldEnv.runSteps cfg { agent_pos := some p, step_count := n }
        acts = { agent_pos := some q, step_count := n + acts.length } := by
  induction acts generalizing p n with
  | nil => exact ⟨p, by simp [GridWorldEnv.runSteps]⟩
  | cons a rest ih =>
    obtain ⟨q, hq⟩ := movePosition_isSome cfg p a (h a (by simp))
    obtain ⟨q', hq'⟩ := ih q (n + 1) (fun b hb => h b (by simp [hb]))
    refine ⟨q', ?_⟩
    rw [GridWorldEnv.runSteps, step_some_of_move cfg n p q a hq]
    rw [hq']
    congr 1
    simp [List.length_cons]
    omega

/-! Claim theorems. -/

/-- C1 counterexample: the claim says that loading a record whose state or
action counts differ from the live agent's configured counts fails with a
DimensionMismatchError and leaves the agent unchanged.  On the source,
load performs no validation at all: loading a 3-state/3-action record into
a 2-state/2-action agent succeeds and overwrites the agent's counts,
table and epsilon with the record's values. -/
theorem load_accepts_mismatched_record :
    smallAgent.num_states = 2 ∧ smallAgent.num_actions = 2 ∧
    mismatchedDict.num_states = 3 ∧ mismatchedDict.num_actions = 3 ∧
    (smallAgent.load mismatchedDict).num_states = 3 ∧
    (smallAgent.load mismatchedDict).num_actions = 3 ∧
    (smallAgent.load mismatchedDict).epsilon ≠ smallAgent.epsilon :=
  ⟨rfl, rfl, rfl, rfl, rfl, rfl, by
    norm_num [QLearningAgent.load, smallAgent, QLearningAgent.init,
      mismatchedDict, defaultQConfig]⟩

/-- C1 amended: load performs no dimension validation; for every agent and
every persisted record it succeeds and unconditionally replaces the agent's
q_table, config, epsilon, num_states and num_actions with the record's
values, even when the record's counts differ from the agent's. -/
theorem load_replaces_all_fields (agent : QLearningAgent) (d : SaveDict) :
    (agent.load d).q_table = d.q_table ∧
    (agent.load d).config = d.config ∧
    (agent.load d).epsilon = d.epsilon ∧
    (agent.load d).num_states = d.num_states ∧
    (agent.load d).num_actions = d.num_actions :=
  ⟨rfl, rfl, rfl, rfl, rfl⟩

/-- C2: learn returns the TD error
(reward + (terminated ? 0 : discount * max Q[next])) - Q[s, a]
and replaces Q[s, a] by Q[s, a] + learning_rate * td_error. -/
theorem learn_bellman_update (agent : QLearningAgent) (s a : Nat) (r : ℚ)
    (s' : Nat) (t : Bool) (hs : s < agent.q_table.length)
    (ha : a < (agent.q_table.getD s []).length) :
    (agent.learn s a r s' t).1 =
      (r + (if t then 0
            else agent.config.discount_factor *
              npMax (agent.q_table.getD s' []))) -
        (agent.q_table.getD s []).getD a 0 ∧
    ((agent.learn s a r s' t).2.q_table.getD s []).getD a 0 =
      (agent.q_table.getD s []).getD a 0 +
        agent.config.learning_rate * (agent.learn s a r s' t).1 := by
  constructor
  · simp only [QLearningAgent.learn]
    cases t <;> simp
  · simp only [QLearningAgent.learn]
    rw [getD_set_self _ _ _ _ hs, getD_set_self _ _ _ _ ha]

/-- C2 witness: the spec's concrete instance.  With learning_rate 0.5,
discount_factor 0.9, Q[0,0] = 2 and max Q[1,a] = 5, the call
learn(0, 0, 4.0, 1, false) returns td_error 6.5 and leaves Q[0,0] = 5.25;
and a terminated call targets the reward alone. -/
theorem learn_bellman_update_witness :
    (bellmanAgent.learn 0 0 4 1 false).1 = 13/2 ∧
    (((bellmanAgent.learn 0 0 4 1 false).2.q_table.getD 0 []).getD 0 0) =
      21/4 ∧
    (bellmanAgent.learn 0 0 4 1 true).1 = 4 - 2 := by
  have h := learn_bellman_update bellmanAgent 0 0 4 1 false
    (by norm_num [bellmanAgent]) (by norm_num [bellmanAgent])
  have h' := learn_bellman_update bellmanAgent 0 0 4 1 true
    (by norm_num [bellmanAgent]) (by norm_num [bellmanAgent])
  refine ⟨?_, ?_, ?_⟩
  · rw [h.1]; norm_num [bellmanAgent, npMax]
  · rw [h.2, h.1]; norm_num [bellmanAgent, npMax]
  · rw [h'.1]; norm_num [bellmanAgent]

/-- C5: for every initialized environment state (any state reachable after
a reset) and every action value outside 0..3, step rejects the action with
the invalid-action error and returns the episode state exactly as it was:
neither the position nor the step count is mutated. -/
theorem step_invalid_action_rejected (cfg : GridWorldConfig) (p : Int × Int)
    (n : Nat) (a : Int)
    (ha : ¬(a = GridWorldEnv.UP ∨ a = GridWorldEnv.DOWN ∨
            a = GridWorldEnv.LEFT ∨ a = GridWorldEnv.RIGHT)) :
    GridWorldEnv.step cfg { agent_pos := some p, step_count := n } a =
      (Except.error (StepError.invalidAction a),
       { agent_pos := some p, step_count := n }) := by
  push_neg at ha
  obtain ⟨h0, h1, h2, h3⟩ := ha
  simp [GridWorldEnv.step, GridWorldEnv.movePosition, h0, h1, h2, h3]

/-- C5 witness: action 7 right after reset of the default configuration. -/
theorem step_invalid_action_rejected_witness :
    ¬((7 : Int) = GridWorldEnv.UP ∨ (7 : Int) = GridWorldEnv.DOWN ∨
      (7 : Int) = GridWorldEnv.LEFT ∨ (7 : Int) = GridWorldEnv.RIGHT) ∧
    GridWorldEnv.step defaultGridConfig
        { agent_pos := some (0, 0), step_count := 0 } 7 =
      (Except.error (StepError.invalidAction 7),
       { agent_pos := some (0, 0), step_count := 0 }) :=
  ⟨by decide, step_invalid_action_rejected defaultGridConfig (0, 0) 0 7
    (by decide)⟩

/-- C9: for every validly constructed environment and every seed argument,
reset returns the configured start position and an empty info mapping, and
afterwards the step counter is 0 and the agent sits on the start cell. -/
theorem reset_start_and_zero_count (cfg : GridWorldConfig)
    (seed : Option Int) (hv : cfg.Valid) :
    (GridWorldEnv.reset cfg seed).1.1 = cfg.start_pos ∧
    (GridWorldEnv.reset cfg seed).1.2 = [] ∧
    (GridWorldEnv.reset cfg seed).2.step_count = 0 ∧
    (GridWorldEnv.reset cfg seed).2.agent_pos = some cfg.start_pos :=
  ⟨rfl, rfl, rfl, rfl⟩

/-- C9 witness: the default configuration is valid and resets to (0,0). -/
theorem reset_start_and_zero_count_witness :
    (GridWorldEnv.reset defaultGridConfig none).1.1 =
      defaultGridConfig.start_pos ∧
    (GridWorldEnv.reset defaultGridConfig none).1.2 = [] ∧
    (GridWorldEnv.reset defaultGridConfig none).2.step_count = 0 ∧
    (GridWorldEnv.reset defaultGridConfig none).2.agent_pos =
      some defaultGridConfig.start_pos :=
  reset_start_and_zero_count defaultGridConfig none (by decide)

/-- C3: from any in-grid position, stepping with any of the four valid
actions keeps both coordinates in [0, grid_size); the step succeeds, and
moving against a boundary wall leaves the position unchanged rather than
failing. -/
theorem step_position_in_bounds (cfg : GridWorldConfig) (n : Nat)
    (p : Int × Int) (a : Int)
    (hx0 : 0 ≤ p.1) (hx1 : p.1 < cfg.grid_size)
    (hy0 : 0 ≤ p.2) (hy1 : p.2 < cfg.grid_size)
    (ha : a = GridWorldEnv.UP ∨ a = GridWorldEnv.DOWN ∨
          a = GridWorldEnv.LEFT ∨ a = GridWorldEnv.RIGHT) :
    ∃ r : StepResult,
      GridWorldEnv.step cfg { agent_pos := some p, step_count := n } a =
        (Except.ok r,
         { agent_pos := some r.observation, step_count := n + 1 }) ∧
      (0 ≤ r.observation.1 ∧ r.observation.1 < cfg.grid_size ∧
       0 ≤ r.observation.2 ∧ r.observation.2 < cfg.grid_size) ∧
      ((a = GridWorldEnv.UP ∧ p.2 = 0) ∨
       (a = GridWorldEnv.DOWN ∧ p.2 = cfg.grid_size - 1) ∨
       (a = GridWorldEnv.LEFT ∧ p.1 = 0) ∨
       (a = GridWorldEnv.RIGHT ∧ p.1 = cfg.grid_size - 1) →
        r.observation = p) := by
  obtain ⟨x, y⟩ := p
  simp only at hx0 hx1 hy0 hy1
  rcases ha with h | h | h | h <;> subst h
  · refine ⟨_, step_some_of_move cfg n (x, y) (x, max 0 (y - 1))
      GridWorldEnv.UP rfl, ?_, ?_⟩
    · dsimp only
      omega
    · rintro (⟨-, hw⟩ | ⟨hc, -⟩ | ⟨hc, -⟩ | ⟨hc, -⟩)
      · dsimp only
        rw [Prod.mk.injEq]
        exact ⟨rfl, by omega⟩
      all_goals exact absurd hc (by decide)
  · refine ⟨_, step_some_of_move cfg n (x, y)
      (x, min (cfg.grid_size - 1) (y + 1)) GridWorldEnv.DOWN rfl, ?_, ?_⟩
    · dsimp only
      omega
    · rintro (⟨hc, -⟩ | ⟨-, hw⟩ | ⟨hc, -⟩ | ⟨hc, -⟩)
      · exact absurd hc (by decide)
      · dsimp only
        rw [Prod.mk.injEq]
        exact ⟨rfl, by omega⟩
      all_goals exact absurd hc (by decide)
  · refine ⟨_, step_some_of_move cfg n (x, y) (max 0 (x - 1), y)
      GridWorldEnv.LEFT rfl, ?_, ?_⟩
    · dsimp only
      omega
    · rintro (⟨hc, -⟩ | ⟨hc, -⟩ | ⟨-, hw⟩ | ⟨hc, -⟩)
      · exact absurd hc (by decide)
      · exact absurd hc (by decide)
      · dsimp only
        rw [Prod.mk.injEq]
        exact ⟨by omega, rfl⟩
      · exact absurd hc (by decide)
  · refine ⟨_, step_some_of_move cfg n (x, y)
      (min (cfg.grid_size - 1) (x + 1), y) GridWorldEnv.RIGHT rfl, ?_, ?_⟩
    · dsimp only
      omega
    · rintro (⟨hc, -⟩ | ⟨hc, -⟩ | ⟨hc, -⟩ | ⟨-, hw⟩)
      · exact absurd hc (by decide)
      · exact absurd hc (by decide)
      · exact absurd hc (by decide)
      · dsimp only
        rw [Prod.mk.injEq]
        exact ⟨by omega, rfl⟩

/-- C3 witness: moving UP from the default start corner (0,0) stays in
bounds and, being a wall move, leaves the position unchanged. -/
theorem step_position_in_bounds_witness :
    ∃ r : StepResult,
      GridWorldEnv.step defaultGridConfig
          { agent_pos := some (0, 0), step_count := 0 } GridWorldEnv.UP =
        (Except.ok r,
         { agent_pos := some r.observation, step_count := 0 + 1 }) ∧
      (0 ≤ r.observation.1 ∧
       r.observation.1 < defaultGridConfig.grid_size ∧
       0 ≤ r.observation.2 ∧
       r.observation.2 < defaultGridConfig.grid_size) ∧
      ((GridWorldEnv.UP = GridWorldEnv.UP ∧
        (((0 : Int), (0 : Int)) : Int × Int).2 = 0) ∨
       (GridWorldEnv.UP = GridWorldEnv.DOWN ∧
        (((0 : Int), (0 : Int)) : Int × Int).2 =
          defaultGridConfig.grid_size - 1) ∨
       (GridWorldEnv.UP = GridWorldEnv.LEFT ∧
        (((0 : Int), (0 : Int)) : Int × Int).1 = 0) ∨
       (GridWorldEnv.UP = GridWorldEnv.RIGHT ∧
        (((0 : Int), (0 : Int)) : Int × Int).1 =
          defaultGridConfig.grid_size - 1) →
        r.observation = ((0 : Int), (0 : Int))) :=
  step_position_in_bounds defaultGridConfig 0 (0, 0) GridWorldEnv.UP
    (by decide) (by decide) (by decide) (by decide) (Or.inl rfl)

/-- C4: state_index(p) = p.y * size + p.x lies in [0, size * size) for
every valid position, with index-to-position as its exact inverse, and
conversely every index in [0, size * size) maps to an in-bounds position
that converts back to the same index: the conversions are inverse
bijections over all size * size valid coordinates. -/
theorem state_index_inverse_bijection (cfg : GridWorldConfig) :
    (∀ p : Int × Int, 0 ≤ p.1 → p.1 < cfg.grid_size → 0 ≤ p.2 →
      p.2 < cfg.grid_size →
      GridWorldEnv.get_state_index cfg p = p.2 * cfg.grid_size + p.1 ∧
      0 ≤ GridWorldEnv.get_state_index cfg p ∧
      GridWorldEnv.get_state_index cfg p < GridWorldEnv.num_states cfg ∧
      GridWorldEnv.get_position_from_index cfg
        (GridWorldEnv.get_state_index cfg p) = p) ∧
    (∀ i : Int, 0 < cfg.grid_size → 0 ≤ i →
      i < GridWorldEnv.num_states cfg →
      GridWorldEnv.get_state_index cfg
        (GridWorldEnv.get_position_from_index cfg i) = i ∧
      0 ≤ (GridWorldEnv.get_position_from_index cfg i).1 ∧
      (GridWorldEnv.get_position_from_index cfg i).1 < cfg.grid_size ∧
      0 ≤ (GridWorldEnv.get_position_from_index cfg i).2 ∧
      (GridWorldEnv.get_position_from_index cfg i).2 < cfg.grid_size) := by
  constructor
  · rintro ⟨x, y⟩ hx0 hx1 hy0 hy1
    simp only at hx0 hx1 hy0 hy1
    have hs : 0 < cfg.grid_size := lt_of_le_of_lt hx0 hx1
    have hidx : GridWorldEnv.get_state_index cfg (x, y) =
        x + y * cfg.grid_size := by
      simp only [GridWorldEnv.get_state_index]
      ring
    refine ⟨rfl, ?_, ?_, ?_⟩
    · rw [hidx]
      have := mul_nonneg hy0 hs.le
      linarith
    · rw [hidx]
      simp only [GridWorldEnv.num_states]
      have hy : y * cfg.grid_size ≤ (cfg.grid_size - 1) * cfg.grid_size :=
        mul_le_mul_of_nonneg_right (by linarith) hs.le
      nlinarith
    · rw [hidx]
      simp only [GridWorldEnv.get_position_from_index]
      rw [Int.fmod_eq_emod _ hs.le, Int.fdiv_eq_ediv _ hs.le,
        Int.add_mul_emod_self, Int.emod_eq_of_lt hx0 hx1,
        Int.add_mul_ediv_right _ _ hs.ne',
        Int.ediv_eq_zero_of_lt hx0 hx1]
      simp
  · intro i hs hi0 hi1
    simp only [GridWorldEnv.num_states] at hi1
    simp only [GridWorldEnv.get_position_from_index,
      GridWorldEnv.get_state_index]
    rw [Int.fmod_eq_emod _ hs.le, Int.fdiv_eq_ediv _ hs.le]
    refine ⟨?_, Int.emod_nonneg i hs.ne', Int.emod_lt_of_pos i hs,
      Int.ediv_nonneg hi0 hs.le, ?_⟩
    · have := Int.ediv_add_emod i cfg.grid_size
      linarith
    · exact (Int.ediv_lt_iff_lt_mul hs).mpr hi1

/-- C4 witness: on the default 5-by-5 grid, (2,3) maps to index 17 and
back, and index 17 converts to a position mapping back to 17. -/
theorem state_index_inverse_bijection_witness :
    GridWorldEnv.get_position_from_index defaultGridConfig
      (GridWorldEnv.get_state_index defaultGridConfig (2, 3)) = (2, 3) ∧
    GridWorldEnv.get_state_index defaultGridConfig
      (GridWorldEnv.get_position_from_index defaultGridConfig 17) = 17 :=
  ⟨((state_index_inverse_bijection defaultGridConfig).1 (2, 3)
      (by decide) (by decide) (by decide) (by decide)).2.2.2,
   ((state_index_inverse_bijection defaultGridConfig).2 17
      (by decide) (by decide) (by decide)).1⟩

/-- C6: for every valid action from an initialized state, the step result
follows the reward cascade: landing on the goal gives goal_reward and
terminates; otherwise landing on an obstacle gives obstacle_penalty and
terminates; otherwise the reward is step_penalty and the episode does not
terminate. -/
theorem step_reward_cases (cfg : GridWorldConfig) (n : Nat)
    (p : Int × Int) (a : Int)
    (ha : a = GridWorldEnv.UP ∨ a = GridWorldEnv.DOWN ∨
          a = GridWorldEnv.LEFT ∨ a = GridWorldEnv.RIGHT) :
    ∃ r : StepResult,
      (GridWorldEnv.step cfg { agent_pos := some p, step_count := n }
          a).1 = Except.ok r ∧
      (r.observation = cfg.goal_pos →
        r.reward = cfg.goal_reward ∧ r.terminated = true) ∧
      (r.observation ≠ cfg.goal_pos → r.observation ∈ cfg.obstacles →
        r.reward = cfg.obstacle_penalty ∧ r.terminated = true) ∧
      (r.observation ≠ cfg.goal_pos → r.observation ∉ cfg.obstacles →
        r.reward = cfg.step_penalty ∧ r.terminated = false) := by
  obtain ⟨q, hq⟩ := movePosition_isSome cfg p a ha
  have hstep := step_some_of_move cfg n p q a hq
  refine ⟨_, by rw [hstep], ?_, ?_, ?_⟩
  · intro h
    dsimp only at h ⊢
    simp [h]
  · intro h1 h2
    dsimp only at h1 h2 ⊢
    simp [h1, h2]
  · intro h1 h2
    dsimp only at h1 h2 ⊢
    simp [h1, h2]

/-- C6 witness: the first RIGHT step on the default grid lands on (1,0),
which is neither goal nor obstacle. -/
theorem step_reward_cases_witness :
    ∃ r : StepResult,
      (GridWorldEnv.step defaultGridConfig
          { agent_pos := some (0, 0), step_count := 0 }
          GridWorldEnv.RIGHT).1 = Except.ok r ∧
      (r.observation = defaultGridConfig.goal_pos →
        r.reward = defaultGridConfig.goal_reward ∧
          r.terminated = true) ∧
      (r.observation ≠ defaultGridConfig.goal_pos →
        r.observation ∈ defaultGridConfig.obstacles →
        r.reward = defaultGridConfig.obstacle_penalty ∧
          r.terminated = true) ∧
      (r.observation ≠ defaultGridConfig.goal_pos →
        r.observation ∉ defaultGridConfig.obstacles →
        r.reward = defaultGridConfig.step_penalty ∧
          r.terminated = false) :=
  step_reward_cases defaultGridConfig 0 (0, 0) GridWorldEnv.RIGHT
    (by decide)

/-- C7: every accepted step increments step_count by exactly 1 and reports
truncated = (step_count >= max_steps) on the incremented counter,
independently of the terminated flag; iterating accepted actions from
reset makes step_count equal the number of actions taken, and the step
that brings the count to exactly max_steps reports truncated = true. -/
theorem step_count_truncated (cfg : GridWorldConfig) :
    (∀ (n : Nat) (p : Int × Int) (a : Int),
      (a = GridWorldEnv.UP ∨ a = GridWorldEnv.DOWN ∨
        a = GridWorldEnv.LEFT ∨ a = GridWorldEnv.RIGHT) →
      ∃ r : StepResult,
        GridWorldEnv.step cfg { agent_pos := some p, step_count := n } a =
          (Except.ok r,
           { agent_pos := some r.observation, step_count := n + 1 }) ∧
        r.info.step_count = n + 1 ∧
        r.truncated = decide (cfg.max_steps ≤ n + 1)) ∧
    (∀ (p₀ : Int × Int) (acts : List Int),
      (∀ b ∈ acts, b = GridWorldEnv.UP ∨ b = GridWorldEnv.DOWN ∨
        b = GridWorldEnv.LEFT ∨ b = GridWorldEnv.RIGHT) →
      ∃ q, GridWorldEnv.runSteps cfg
          { agent_pos := some p₀, step_count := 0 } acts =
        { agent_pos := some q, step_count := acts.length }) ∧
    (∀ (p₀ : Int × Int) (acts : List Int) (a : Int),
      (∀ b ∈ a :: acts, b = GridWorldEnv.UP ∨ b = GridWorldEnv.DOWN ∨
        b = GridWorldEnv.LEFT ∨ b = GridWorldEnv.RIGHT) →
      acts.length + 1 = cfg.max_steps →
      ∃ (q : Int × Int) (r : StepResult) (s' : EnvState),
        GridWorldEnv.runSteps cfg
            { agent_pos := some p₀, step_count := 0 } acts =
          { agent_pos := some q, step_count := acts.length } ∧
        GridWorldEnv.step cfg
            { agent_pos := some q, step_count := acts.length } a =
          (Except.ok r, s') ∧
        r.truncated = true) := by
  have single : ∀ (n : Nat) (p : Int × Int) (a : Int),
      (a = GridWorldEnv.UP ∨ a = GridWorldEnv.DOWN ∨
        a = GridWorldEnv.LEFT ∨ a = GridWorldEnv.RIGHT) →
      ∃ r : StepResult,
        GridWorldEnv.step cfg { agent_pos := some p, step_count := n } a =
          (Except.ok r,
           { agent_pos := some r.observation, step_count := n + 1 }) ∧
        r.info.step_count = n + 1 ∧
        r.truncated = decide (cfg.max_steps ≤ n + 1) := by
    intro n p a ha
    obtain ⟨q, hq⟩ := movePosition_isSome cfg p a ha
    exact ⟨_, step_some_of_move cfg n p q a hq, rfl, rfl⟩
  have trace : ∀ (p₀ : Int × Int) (acts : List Int),
      (∀ b ∈ acts, b = GridWorldEnv.UP ∨ b = GridWorldEnv.DOWN ∨
        b = GridWorldEnv.LEFT ∨ b = GridWorldEnv.RIGHT) →
      ∃ q, GridWorldEnv.runSteps cfg
          { agent_pos := some p₀, step_count := 0 } acts =
        { agent_pos := some q, step_count := acts.length } := by
    intro p₀ acts hall
    have h := runSteps_some cfg acts p₀ 0 hall
    simpa using h
  refine ⟨single, trace, ?_⟩
  intro p₀ acts a hall hlen
  obtain ⟨q, hq⟩ := trace p₀ acts (fun b hb => hall b (List.mem_cons_of_mem a hb))
  obtain ⟨r, hr, -, htr⟩ := single acts.length q a (hall a (List.mem_cons_self a acts))
  refine ⟨q, r, _, hq, hr, ?_⟩
  rw [htr, hlen]
  simp

/-- C7 witness: with max_steps = 2 the second accepted action reports
truncated = true. -/
theorem step_count_truncated_witness :
    ∃ (q : Int × Int) (r : StepResult) (s' : EnvState),
      GridWorldEnv.runSteps twoStepConfig
          { agent_pos := some (0, 0), step_count := 0 }
          [GridWorldEnv.RIGHT] =
        { agent_pos := some q, step_count := [GridWorldEnv.RIGHT].length } ∧
      GridWorldEnv.step twoStepConfig
          { agent_pos := some q,
            step_count := [GridWorldEnv.RIGHT].length }
          GridWorldEnv.RIGHT =
        (Except.ok r, s') ∧
      r.truncated = true :=
  (step_count_truncated twoStepConfig).2.2 (0, 0) [GridWorldEnv.RIGHT]
    GridWorldEnv.RIGHT (by decide) (by decide)

/-- C8 counterexample: with epsilon_decay = 1/2 in [0,1] and
epsilon = -1 at least epsilon_end = -2 (the claim's stated assumptions),
decay_epsilon raises epsilon from -1 to -1/2, so the decayed sequence is
not monotone non-increasing as claimed. -/
theorem decay_epsilon_claim_counterexample :
    (0 ≤ negativeEpsAgent.config.epsilon_decay ∧
     negativeEpsAgent.config.epsilon_decay ≤ 1 ∧
     negativeEpsAgent.config.epsilon_end ≤ negativeEpsAgent.epsilon) ∧
    negativeEpsAgent.decay_epsilon.epsilon = -1/2 ∧
    ¬ negativeEpsAgent.decay_epsilon.epsilon ≤ negativeEpsAgent.epsilon := by
  have hmax : max (-2 : ℚ) (-1 * (1/2)) = -1/2 := by
    rw [max_eq_right (by norm_num)]
    norm_num
  refine ⟨⟨by norm_num [negativeEpsAgent], by norm_num [negativeEpsAgent],
    by norm_num [negativeEpsAgent]⟩, ?_, ?_⟩
  · show max (-2 : ℚ) (-1 * (1/2)) = -1/2
    exact hmax
  · show ¬ max (-2 : ℚ) (-1 * (1/2)) ≤ -1
    rw [hmax]
    norm_num

theorem decayN_config (agent : QLearningAgent) (n : Nat) :
    (agent.decayN n).config = agent.config := by
  induction n with
  | zero => rfl
  | succ k ih =>
    simp [QLearningAgent.decayN, QLearningAgent.decay_epsilon, ih]

theorem epsilon_end_le_decay_epsilon (b : QLearningAgent) :
    b.config.epsilon_end ≤ b.decay_epsilon.epsilon :=
  le_max_left _ _

theorem decay_epsilon_le_self (b : QLearningAgent)
    (h0 : 0 ≤ b.config.epsilon_decay) (h1 : b.config.epsilon_decay ≤ 1)
    (h3 : 0 ≤ b.config.epsilon_end)
    (h2 : b.config.epsilon_end ≤ b.epsilon) :
    b.decay_epsilon.epsilon ≤ b.epsilon := by
  have he : 0 ≤ b.epsilon := le_trans h3 h2
  exact max_le h2 (mul_le_of_le_one_right he h1)

theorem epsilon_end_le_decayN (agent : QLearningAgent)
    (h2 : agent.config.epsilon_end ≤ agent.epsilon) (n : Nat) :
    agent.config.epsilon_end ≤ (agent.decayN n).epsilon := by
  cases n with
  | zero => exact h2
  | succ k =>
    have h := epsilon_end_le_decay_epsilon (agent.decayN k)
    rw [decayN_config agent k] at h
    exact h

/-- C8 amended: decay_epsilon sets epsilon to
max(epsilon_end, epsilon * epsilon_decay) unconditionally; assuming
additionally that epsilon_end is non-negative (true of any probability
floor, but not implied by the claim's stated hypotheses), repeated decay
is monotone non-increasing, never falls below epsilon_end, and once
epsilon equals the floor a further call leaves it unchanged. -/
theorem decay_epsilon_monotone_floored (agent : QLearningAgent)
    (h0 : 0 ≤ agent.config.epsilon_decay)
    (h1 : agent.config.epsilon_decay ≤ 1)
    (h2 : agent.config.epsilon_end ≤ agent.epsilon)
    (h3 : 0 ≤ agent.config.epsilon_end) :
    agent.decay_epsilon.epsilon =
      max agent.config.epsilon_end
        (agent.epsilon * agent.config.epsilon_decay) ∧
    (∀ n : Nat,
      (agent.decayN (n + 1)).epsilon ≤ (agent.decayN n).epsilon ∧
      agent.config.epsilon_end ≤ (agent.decayN n).epsilon) ∧
    (agent.epsilon = agent.config.epsilon_end →
      agent.decay_epsilon.epsilon = agent.config.epsilon_end) := by
  refine ⟨rfl, ?_, ?_⟩
  · intro n
    have hc := decayN_config agent n
    refine ⟨?_, epsilon_end_le_decayN agent h2 n⟩
    exact decay_epsilon_le_self (agent.decayN n) (by rw [hc]; exact h0)
      (by rw [hc]; exact h1) (by rw [hc]; exact h3)
      (by rw [hc]; exact epsilon_end_le_decayN agent h2 n)
  · intro he
    have hle : agent.epsilon * agent.config.epsilon_decay ≤
        agent.config.epsilon_end := by
      rw [he]
      exact mul_le_of_le_one_right h3 h1
    show max agent.config.epsilon_end
      (agent.epsilon * agent.config.epsilon_decay) =
        agent.config.epsilon_end
    exact max_eq_left hle

/-- C8 amended witness: the Bellman example agent (epsilon 1, floor 1/100,
decay 199/200) decays monotonically and stays at or above the floor. -/
theorem decay_epsilon_monotone_floored_witness :
    (bellmanAgent.decayN (0 + 1)).epsilon ≤
      (bellmanAgent.decayN 0).epsilon ∧
    bellmanAgent.config.epsilon_end ≤ (bellmanAgent.decayN 0).epsilon :=
  (decay_epsilon_monotone_floored bellmanAgent
    (by norm_num [bellmanAgent]) (by norm_num [bellmanAgent])
    (by norm_num [bellmanAgent]) (by norm_num [bellmanAgent])).2.1 0

/-- C10: when the goal position is also listed as an obstacle, a step that
lands on it takes the goal branch first: reward = goal_reward and
terminated = true, while the returned info reports both is_goal = true and
is_obstacle = true. -/
theorem goal_priority_over_obstacle (cfg : GridWorldConfig)
    (p : Int × Int) (n : Nat) (a : Int)
    (hobs : cfg.goal_pos ∈ cfg.obstacles)
    (hmove : GridWorldEnv.movePosition cfg p a = some cfg.goal_pos) :
    ∃ (s' : EnvState) (r : StepResult),
      GridWorldEnv.step cfg { agent_pos := some p, step_count := n } a =
        (Except.ok r, s') ∧
      r.reward = cfg.goal_reward ∧ r.terminated = true ∧
      r.info.is_goal = true ∧ r.info.is_obstacle = true := by
  refine ⟨_, _, step_some_of_move cfg n p cfg.goal_pos a hmove,
    ?_, ?_, ?_, ?_⟩ <;> simp [hobs]

/-- C10 witness: a 2-by-2 grid whose goal (1,0) is also an obstacle;
stepping RIGHT from (0,0) lands on it. -/
theorem goal_priority_over_obstacle_witness :
    ∃ (s' : EnvState) (r : StepResult),
      GridWorldEnv.step goalOnObstacleConfig
          { agent_pos := some (0, 0), step_count := 0 }
          GridWorldEnv.RIGHT =
        (Except.ok r, s') ∧
      r.reward = goalOnObstacleConfig.goal_reward ∧
      r.terminated = true ∧
      r.info.is_goal = true ∧ r.info.is_obstacle = true :=
  goal_priority_over_obstacle goalOnObstacleConfig (0, 0) 0
    GridWorldEnv.RIGHT (by decide) (by decide)

end GridWorld
